import Mathlib

/-!
Verification of the evaluation-DAG execution engine in
`src/deepeval/metrics/dag/nodes.py`: node-construction validation,
indegree-gated execution, verdict-gated branch pruning, verbose-log
construction, and the synchronous / concurrent execution entry points.

The model capability, prompt templates and the host metric object are
external collaborators; they are represented by pure functions
(deterministic model) and an explicit accumulator record, exactly as the
code consumes them.
-/

namespace DeepevalDag

/-- Python dynamic value stored in a VerdictNode verdict field: a bool
(binary judgement children) or a string (non-binary judgement children). -/
inductive PyVal where
  | b (v : Bool)
  | s (v : String)
deriving DecidableEq, Repr

/-- Python exception classes raised by construction and execution code. -/
inductive PyErr where
  | valueError (msg : String)
  | typeError (msg : String)
deriving DecidableEq, Repr

/-- The kind of object a VerdictNode child field may hold: a plain graph
node (BaseNode), a GEval sub-evaluator, or another BaseMetric
(nodes.py line 63). -/
inductive ChildRef where
  | node
  | gEval
  | baseMetric
deriving DecidableEq, Repr

/-- VerdictNode.__post_init__ (nodes.py lines 69-84): exactly one of
score and child must be supplied, and a supplied score must lie in 0..10. -/
def verdictNodePostInit (score : Option Int) (child : Option ChildRef) :
    Except PyErr Unit :=
  if score.isSome && child.isSome then
    .error (.valueError "A VerdictNode can have either a score or a child, but not both.")
  else if score.isNone && child.isNone then
    .error (.valueError "A VerdictNode must have either a score or a child.")
  else
    match score with
    | some sc =>
        if 0 ≤ sc ∧ sc ≤ 10 then .ok ()
        else .error (.valueError "The score must be between 0 and 10, inclusive.")
    | none => .ok ()

/-- An element of a children list handed to a composite-node
constructor: either a VerdictNode (carrying its verdict value, optional
score and optional child) or a node of some other type. -/
inductive ChildArg where
  | verdictNode (verdict : PyVal) (score : Option Int) (child : Option ChildRef)
  | otherNode
deriving DecidableEq, Repr

/-- Per-child loop of BinaryJudgementNode.__post_init__ (nodes.py lines
404-411): every child must be a VerdictNode carrying a boolean verdict. -/
def binaryChildCheck : List ChildArg → Except PyErr Unit
  | [] => .ok ()
  | .verdictNode (.b _) _ _ :: rest => binaryChildCheck rest
  | .verdictNode (.s _) _ _ :: _ =>
      .error (.valueError "All children BinaryJudgementNode must have a boolean verdict.")
  | .otherNode :: _ =>
      .error (.typeError "All children must be of type VerdictNode.")

/-- Boolean verdict values of the children, in order (nodes.py line 414). -/
def boolVerdicts (cs : List ChildArg) : List Bool :=
  cs.filterMap fun c =>
    match c with
    | .verdictNode (.b v) _ _ => some v
    | _ => none

/-- BinaryJudgementNode construction validation (nodes.py lines 397-418):
exactly 2 children, all VerdictNode with boolean verdicts, exactly one
True and one False. -/
def binaryJudgementValidate (children : List ChildArg) : Except PyErr Unit :=
  if children.length ≠ 2 then
    .error (.valueError "BinaryJudgementNode must have exactly 2 children.")
  else
    match binaryChildCheck children with
    | .error e => .error e
    | .ok _ =>
        let verdicts := boolVerdicts children
        if verdicts.count true ≠ 1 ∨ verdicts.count false ≠ 1 then
          .error (.valueError "BinaryJudgementNode must have one True and one False VerdictNode child.")
        else .ok ()

/-- Per-child loop of NonBinaryJudgementNode.__post_init__ (nodes.py
lines 553-569): each child must be a VerdictNode with a string verdict,
duplicates are rejected, and the distinct verdict strings are
accumulated in first-seen order. -/
def nonBinaryChildLoop : List ChildArg → List String → Except PyErr (List String)
  | [], seen => .ok seen
  | .verdictNode (.s v) _ _ :: rest, seen =>
      if v ∈ seen then
        .error (.valueError ("Duplicate verdict found: " ++ v ++ " in children of NonBinaryJudgementNode."))
      else nonBinaryChildLoop rest (seen ++ [v])
  | .verdictNode (.b _) _ _ :: _, _ =>
      .error (.valueError "The verdict attribute of all children must be a string.")
  | .otherNode :: _, _ =>
      .error (.typeError "All children must be of type VerdictNode.")

/-- NonBinaryJudgementNode construction validation (nodes.py lines
546-571); on success returns the derived verdict-option list. -/
def nonBinaryJudgementValidate (children : List ChildArg) :
    Except PyErr (List String) :=
  if children = [] then
    .error (.valueError "NonBinaryJudgementNode must have at least one child.")
  else nonBinaryChildLoop children []

/-- String verdict values of the children, in order. -/
def stringVerdicts (cs : List ChildArg) : List String :=
  cs.filterMap fun c =>
    match c with
    | .verdictNode (.s v) _ _ => some v
    | _ => none

/-- TaskNode.__post_init__ child validation (nodes.py lines 270-275):
VerdictNode children are rejected; evaluation_params is never
inspected at construction time. -/
def taskNodePostInit (children : List ChildArg) : Except PyErr Unit :=
  if children.any (fun c => match c with | .verdictNode _ _ _ => true | _ => false) then
    .error (.valueError "A TaskNode must not have a VerdictNode as one of their children.")
  else .ok ()

/-- Rendering of a Python value inside an f-string: None prints as the
literal text None, a string prints as itself. -/
def pyOptStr : Option String → String
  | none => "None"
  | some s => s

/-- A direct parent as read during upstream-context gathering: only
TaskNode parents contribute, through their output_label and _output
fields. -/
inductive ParentView where
  | taskP (output_label : String) (output : Option String)
  | otherP
deriving DecidableEq, Repr

/-- Upstream parent context built by TaskNode._execute (nodes.py lines
290-294): label, colon, newline, output, then a blank line, per
TaskNode parent, in parent order. -/
def taskParentContext (ps : List ParentView) : String :=
  ps.foldl
    (fun acc p =>
      match p with
      | .taskP lbl out => acc ++ lbl ++ ":\n" ++ pyOptStr out ++ "\n\n"
      | .otherP => acc)
    ""

/-- Upstream parent context built by BinaryJudgementNode._execute
(nodes.py lines 436-440): identical to the TaskNode form, with the
trailing blank line. -/
def binaryParentContext (ps : List ParentView) : String :=
  ps.foldl
    (fun acc p =>
      match p with
      | .taskP lbl out => acc ++ lbl ++ ":\n" ++ pyOptStr out ++ "\n\n"
      | .otherP => acc)
    ""

/-- Upstream parent context built by NonBinaryJudgementNode._execute
(nodes.py lines 596-600): a single newline after the parent output, no
trailing blank line. -/
def nonBinaryParentContext (ps : List ParentView) : String :=
  ps.foldl
    (fun acc p =>
      match p with
      | .taskP lbl out => acc ++ lbl ++ ":\n" ++ pyOptStr out ++ "\n"
      | .otherP => acc)
    ""

/-- Fragment shape asserted by the spec for every composite node: the
parent output followed by a trailing blank line. -/
def specFragmentDouble : ParentView → String
  | .taskP lbl out => lbl ++ ":\n" ++ pyOptStr out ++ "\n\n"
  | .otherP => ""

/-- Spec-shaped context: concatenation of the double-newline fragments. -/
def specContextDouble : List ParentView → String
  | [] => ""
  | p :: rest => specFragmentDouble p ++ specContextDouble rest

/-- Fragment with a single trailing newline, as the non-binary code
actually builds it. -/
def specFragmentSingle : ParentView → String
  | .taskP lbl out => lbl ++ ":\n" ++ pyOptStr out ++ "\n"
  | .otherP => ""

/-- Single-newline context: concatenation of the single-newline fragments. -/
def specContextSingle : List ParentView → String
  | [] => ""
  | p :: rest => specFragmentSingle p ++ specContextSingle rest

/-- Evaluation-parameter selectors (LLMTestCaseParams). -/
inductive Param where
  | input
  | actualOutput
  | expectedOutput
  | context
  | retrievalContext
  | toolsCalled
deriving DecidableEq, Repr

/-- Modelled from the spec: the G_EVAL_PARAMS display name of an
evaluation parameter (deepeval/metrics/g_eval/utils.py is not under
src; the spec calls this the param display name). -/
def paramDisplay : Param → String
  | .input => "Input"
  | .actualOutput => "Actual Output"
  | .expectedOutput => "Expected Output"
  | .context => "Context"
  | .retrievalContext => "Retrieval Context"
  | .toolsCalled => "Tools Called"

/-- The test case: named textual fields selectable by the parameter
selectors (tool-call values are already serialized to text here, as
repr does in the code). -/
structure TestCase where
  value : Param → String

/-- Body of the evaluation-parameter loop shared by the execute methods
(nodes.py lines 296-300): display name, colon, newline, value, newline. -/
def evalParamsText (tc : TestCase) (ps : List Param) : String :=
  ps.foldl (fun acc p => acc ++ paramDisplay p ++ ":\n" ++ tc.value p ++ "\n") ""

/-- TaskNode._execute (nodes.py lines 296-300) iterates
evaluation_params with no None guard: a TaskNode left with the default
None raises TypeError when iterated. -/
def taskEvalParamsText (tc : TestCase) (ps : Option (List Param)) :
    Except PyErr String :=
  match ps with
  | none => .error (.typeError "NoneType object is not iterable")
  | some l => .ok (evalParamsText tc l)

/-- BinaryJudgementNode._execute (nodes.py lines 442-447) guards the
same loop with an explicit None check, contributing nothing when
evaluation_params is None; NonBinaryJudgementNode (lines 602-607) has
the same guard. -/
def judgeEvalParamsText (tc : TestCase) (ps : Option (List Param)) : String :=
  match ps with
  | none => ""
  | some l => evalParamsText tc l

/-- Arrival gate shared by every execute method: the mutable _indegree
counter (nodes.py lines 26-27, 51-56) together with a count of payload
executions. -/
structure Gate where
  indegree : Int
  payloads : Nat
deriving DecidableEq, Repr

/-- One invocation of an execution entry point, up to the gate
(nodes.py lines 286-288): decrement_indegree, return when the counter
is still positive, otherwise run the payload once. -/
def gateArrive (s : Gate) : Gate :=
  let d := s.indegree - 1
  if 0 < d then { indegree := d, payloads := s.payloads }
  else { indegree := d, payloads := s.payloads + 1 }

/-- A sequence of arrivals, one per list element; the decrement
performed by an arrival does not depend on which edge delivered it, so
the tag carried by each element is ignored exactly as the code ignores
the identity of the calling parent. -/
def gateRun : List Nat → Gate → Gate
  | [], s => s
  | _ :: rest, s => gateRun rest (gateArrive s)

/-- A node with K constructed incoming edges starts at indegree K:
increment_indegree once per edge (nodes.py lines 51-52, 278-280,
421-425). -/
def gateInit (K : Nat) : Gate := { indegree := (K : Int), payloads := 0 }

/-! ## Executable DAG model -/

/-- Node identifier: nodes live in an arena list, in construction order;
reference identity in the code becomes an index here. -/
abbrev NodeId := Nat

/-- Structured binary judgement result (schema.py BinaryJudgementVerdict). -/
structure BVerdict where
  verdict : Bool
  reason : String
deriving DecidableEq, Repr

/-- Graph nodes of the executable DAG model: TaskNode,
BinaryJudgementNode and VerdictNode with an optional plain-node child
referenced by index. GEval / BaseMetric sub-evaluators are external
collaborators and stay outside this executable model. -/
inductive GNode where
  | task (instructions output_label : String) (children : List NodeId)
      (evaluation_params : Option (List Param)) (label : Option String)
  | judge (criteria : String) (children : List NodeId)
      (evaluation_params : Option (List Param)) (label : Option String)
  | verdict (verdict : Bool) (score : Option Int) (child : Option NodeId)
deriving DecidableEq, Repr

/-- The DAG: its nodes in construction order. -/
structure Graph where
  nodes : List GNode
deriving DecidableEq, Repr

/-- Direct children registered by set_parent during construction
(a VerdictNode never registers its nested child as a graph child). -/
def childrenOf : GNode → List NodeId
  | .task _ _ cs _ _ => cs
  | .judge _ cs _ _ => cs
  | .verdict _ _ _ => []

/-- All node ids a node refers to: its children list and, for a
VerdictNode, its nested child. -/
def refsOf : GNode → List NodeId
  | .task _ _ cs _ _ => cs
  | .judge _ cs _ _ => cs
  | .verdict _ _ c => c.toList

/-- Nested-increment of judgement construction (nodes.py lines 424-425,
584-585): a direct VerdictNode child wrapping a plain graph node as its
child bumps that nested node once. -/
def nestedBump (g : Graph) (c : NodeId) (id : NodeId) : Nat :=
  match g.nodes.get? c with
  | some (.verdict _ _ (some k)) => if k = id then 1 else 0
  | _ => 0

/-- Sum of nested bumps over a judgement node children list. -/
def nestedBumps (g : Graph) (id : NodeId) : List NodeId → Nat
  | [] => 0
  | c :: rest => nestedBump g c id + nestedBumps g id rest

/-- Indegree contribution of constructing one node (TaskNode lines
278-280: one increment per direct child occurrence; judgement nodes
lines 421-425: the same plus the nested bump). -/
def indegreeFrom (g : Graph) (n : GNode) (id : NodeId) : Nat :=
  match n with
  | .task _ _ cs _ _ => cs.count id
  | .judge _ cs _ _ => cs.count id + nestedBumps g id cs
  | .verdict _ _ _ => 0

/-- Indegree contributions accumulated over a node list. -/
def edgesScan (g : Graph) (id : NodeId) : List GNode → Nat
  | [] => 0
  | n :: rest => indegreeFrom g n id + edgesScan g id rest

/-- Total constructed indegree of a node: one increment per incoming
edge established at construction. -/
def edgesInto (g : Graph) (id : NodeId) : Nat := edgesScan g id g.nodes

/-- The _parents sequence built by set_parent calls, scanning nodes in
construction order; a parent appears once per occurrence of the child
in its children list. -/
def parentScan (id : NodeId) : List GNode → NodeId → List NodeId
  | [], _ => []
  | n :: rest, j => List.replicate ((childrenOf n).count id) j ++ parentScan id rest (j + 1)

/-- Parents of a node, in construction order. -/
def parentIdsOf (g : Graph) (id : NodeId) : List NodeId := parentScan id g.nodes 0

/-- The single _parent field of a VerdictNode: whichever constructor
called set_parent on it last (nodes.py lines 30-32). -/
def verdictParentOf (g : Graph) (id : NodeId) : Option NodeId :=
  (parentIdsOf g id).getLast?

/-- Per-node mutable execution state: _indegree, _depth, _output,
_verdict, plus a ghost counter of payload executions. -/
structure NodeRT where
  indegree : Int
  depth : Nat
  output : Option String
  verdictRes : Option BVerdict
  fired : Nat
deriving DecidableEq, Repr

/-- Host metric accumulators written by the nodes: score, reason,
evaluation_cost, verbose_steps and include_reason, plus a ghost count
of model invocations. -/
structure Metric where
  score : Option ℚ
  reason : Option String
  evaluationCost : ℚ
  includeReason : Bool
  verboseSteps : List String
  modelCalls : Nat
deriving DecidableEq, Repr

/-- The deterministic model capability composed with the opaque prompt
templates: each generate call is a pure function of the template
inputs, returning the structured result and an incremental cost
(native-model calling convention, nodes.py lines 306-309, 453-458,
217-219). -/
structure Model where
  taskGen : String → String → String × ℚ
  binaryGen : String → String → BVerdict × ℚ
  reasonGen : List String → ℚ → String × ℚ

/-- Whole execution state: per-node runtime records, the host metric,
and a flag recording an uncaught Python exception. -/
structure ExecState where
  rt : NodeId → NodeRT
  metric : Metric
  err : Bool

/-- Runtime record of a node. -/
def rtGet (st : ExecState) (id : NodeId) : NodeRT := st.rt id

/-- Point update of one node runtime record. -/
def rtMod (st : ExecState) (id : NodeId) (f : NodeRT → NodeRT) : ExecState :=
  { st with rt := Function.update st.rt id (f (st.rt id)) }

/-- decrement_indegree (nodes.py lines 55-56). -/
def decrIndegree (st : ExecState) (id : NodeId) : ExecState :=
  rtMod st id fun r => { r with indegree := r.indegree - 1 }

/-- Depth update at entry: self._depth = max(0, self._depth, depth). -/
def setDepthMax (st : ExecState) (id : NodeId) (depth : Nat) : ExecState :=
  rtMod st id fun r => { r with depth := max r.depth depth }

/-- Ghost marker: the payload of this node starts executing. -/
def fireNode (st : ExecState) (id : NodeId) : ExecState :=
  rtMod st id fun r => { r with fired := r.fired + 1 }

/-- metric._verbose_steps.append. -/
def appendStep (st : ExecState) (s : String) : ExecState :=
  { st with metric := { st.metric with verboseSteps := st.metric.verboseSteps ++ [s] } }

/-- metric.evaluation_cost += cost, performed at each model invocation. -/
def addCost (st : ExecState) (c : ℚ) : ExecState :=
  { st with metric := { st.metric with
      evaluationCost := st.metric.evaluationCost + c,
      modelCalls := st.metric.modelCalls + 1 } }

/-- An uncaught Python exception: it aborts the remainder of the run. -/
def raiseErr (st : ExecState) : ExecState := { st with err := true }

/-- Label rendering in the verbose log (nodes.py line 701): the Python
truthiness test prints None for a missing or empty label. -/
def labelText : Option String → String
  | some l => if l = "" then "None" else l
  | none => "None"

/-- Python str of a bool inside an f-string. -/
def pyBool : Bool → String
  | true => "True"
  | false => "False"

/-- A run of n copies of a character, as the banner lines use. -/
def lineOf (c : Char) (n : Nat) : String := String.mk (List.replicate n c)

/-- construct_node_verbose_log for a BinaryJudgementNode (nodes.py
lines 703-723; underscore multiple 34, star multiple 48). -/
def binaryVerboseLog (criteria : String) (label : Option String)
    (v : BVerdict) (depth : Nat) : String :=
  lineOf '_' 34 ++ "\n| BinaryJudgementNode | Level == " ++ toString depth ++ " |\n" ++
    lineOf '*' 48 ++ "\nLabel: " ++ labelText label ++ "\n\nCriteria:\n" ++ criteria ++
    "\n\nVerdict: " ++ pyBool v.verdict ++ "\nReason: " ++ v.reason ++ "\n"

/-- construct_node_verbose_log for a TaskNode (nodes.py lines 724-733). -/
def taskVerboseLog (instructions output_label : String) (label : Option String)
    (output : Option String) (depth : Nat) : String :=
  lineOf '_' 22 ++ "\n| TaskNode | Level == " ++ toString depth ++ " |\n" ++
    lineOf '*' 31 ++ "\nLabel: " ++ labelText label ++ "\n\nInstructions:\n" ++ instructions ++
    "\n\n" ++ output_label ++ ":\n" ++ pyOptStr output ++ "\n"

/-- construct_node_verbose_log for a VerdictNode with no sub-evaluator
metric (nodes.py lines 734-757, Deterministic type, no trailing
newline). -/
def verdictVerboseLog (verdict : Bool) (depth : Nat) : String :=
  lineOf '_' 24 ++ "\n| VerdictNode | Level == " ++ toString depth ++ " |\n" ++
    lineOf '*' 34 ++ "\nVerdict: " ++ pyBool verdict ++ "\nType: Deterministic"

/-- Upstream context from TaskNode parents as gathered inside the
execute methods (nodes.py lines 290-294 and 436-440), reading each
parent _output from the current state. -/
def gParentsText (g : Graph) (st : ExecState) (parents : List NodeId) : String :=
  parents.foldl
    (fun acc p =>
      match g.nodes.get? p with
      | some (.task _ lbl _ _ _) => acc ++ lbl ++ ":\n" ++ pyOptStr (rtGet st p).output ++ "\n\n"
      | _ => acc)
    ""

/-- Result of the VerdictNode ownership check (nodes.py lines 91-95). -/
inductive GateRes where
  | go
  | stop
  | fail
deriving DecidableEq, Repr

/-- VerdictNode verdict gating (nodes.py lines 91-95): when the single
parent is a judgement node, compare its resolved verdict with this
node verdict; a mismatch abandons execution. An unresolved parent
would raise AttributeError in the code. -/
def verdictGate (g : Graph) (st : ExecState) (id : NodeId) (v : Bool) : GateRes :=
  match verdictParentOf g id with
  | some j =>
      match g.nodes.get? j with
      | some (.judge _ _ _ _) =>
          match (rtGet st j).verdictRes with
          | some res => if res.verdict = v then .go else .stop
          | none => .fail
      | _ => .go
  | none => .go

/-- Terminal-leaf payload of VerdictNode._execute (nodes.py lines
139-145): append the verbose log, set the normalized score, and
synthesize a reason when requested. -/
def verdictLeafPayload (M : Model) (st : ExecState) (v : Bool)
    (score : Option Int) (depth : Nat) : ExecState :=
  match score with
  | none => raiseErr st
  | some s =>
      let st1 := appendStep st (verdictVerboseLog v depth)
      let st2 := { st1 with metric := { st1.metric with score := some ((s : ℚ) / 10) } }
      if st2.metric.includeReason then
        let rc := M.reasonGen st2.metric.verboseSteps ((s : ℚ) / 10)
        let st3 := addCost st2 rc.2
        { st3 with metric := { st3.metric with reason := some rc.1 } }
      else st2

/-- Synchronous execution: the _execute methods of VerdictNode (nodes.py
lines 86-145, restricted to plain-node children), TaskNode (lines
284-327) and BinaryJudgementNode (lines 430-476), with explicit fuel.
Fuel exhaustion and dangling references are recorded as errors. -/
def execNode (M : Model) (tc : TestCase) (g : Graph) :
    Nat → NodeId → Nat → ExecState → ExecState
  | 0, _, _, st => raiseErr st
  | Nat.succ fuel, id, depth, st =>
    if st.err then st else
    match g.nodes.get? id with
    | none => raiseErr st
    | some (.verdict v score child) =>
        let st1 := decrIndegree st id
        if 0 < (rtGet st1 id).indegree then st1
        else
          match verdictGate g st1 id v with
          | .stop => st1
          | .fail => raiseErr st1
          | .go =>
              let st2 := fireNode st1 id
              match child with
              | some cid => execNode M tc g fuel cid depth st2
              | none => verdictLeafPayload M st2 v score depth
    | some (.task instr outLbl cs ps lbl) =>
        let st1 := decrIndegree (setDepthMax st id depth) id
        if 0 < (rtGet st1 id).indegree then st1
        else
          let d := (rtGet st1 id).depth
          let st2 := fireNode st1 id
          match ps with
          | none => raiseErr st2
          | some l =>
              let text := gParentsText g st2 (parentIdsOf g id) ++ evalParamsText tc l
              let oc := M.taskGen instr text
              let st3 := rtMod (addCost st2 oc.2) id fun r => { r with output := some oc.1 }
              let st4 := appendStep st3 (taskVerboseLog instr outLbl lbl (some oc.1) d)
              cs.foldl (fun s c => execNode M tc g fuel c (d + 1) s) st4
    | some (.judge crit cs ps lbl) =>
        let st1 := decrIndegree (setDepthMax st id depth) id
        if 0 < (rtGet st1 id).indegree then st1
        else
          let d := (rtGet st1 id).depth
          let st2 := fireNode st1 id
          let text := gParentsText g st2 (parentIdsOf g id) ++ judgeEvalParamsText tc ps
          let vc := M.binaryGen crit text
          let st3 := rtMod (addCost st2 vc.2) id fun r => { r with verdictRes := some vc.1 }
          let st4 := appendStep st3 (binaryVerboseLog crit lbl vc.1 d)
          cs.foldl (fun s c => execNode M tc g fuel c (d + 1) s) st4

/-- Concurrent execution: the _a_execute methods (nodes.py lines
147-209, 329-381, 478-530). The methods differ from the synchronous
ones only in running the children through asyncio.gather; the gather
join is modelled by serializing the children whole-subtree executions
in a completion order chosen by the schedule, applied at every fan-out.
The schedule fixed to the identity corresponds to children completing
in launch order. -/
def execNodeA (M : Model) (tc : TestCase) (g : Graph)
    (sched : List NodeId → List NodeId) :
    Nat → NodeId → Nat → ExecState → ExecState
  | 0, _, _, st => raiseErr st
  | Nat.succ fuel, id, depth, st =>
    if st.err then st else
    match g.nodes.get? id with
    | none => raiseErr st
    | some (.verdict v score child) =>
        let st1 := decrIndegree st id
        if 0 < (rtGet st1 id).indegree then st1
        else
          match verdictGate g st1 id v with
          | .stop => st1
          | .fail => raiseErr st1
          | .go =>
              let st2 := fireNode st1 id
              match child with
              | some cid => execNodeA M tc g sched fuel cid depth st2
              | none => verdictLeafPayload M st2 v score depth
    | some (.task instr outLbl cs ps lbl) =>
        let st1 := decrIndegree (setDepthMax st id depth) id
        if 0 < (rtGet st1 id).indegree then st1
        else
          let d := (rtGet st1 id).depth
          let st2 := fireNode st1 id
          match ps with
          | none => raiseErr st2
          | some l =>
              let text := gParentsText g st2 (parentIdsOf g id) ++ evalParamsText tc l
              let oc := M.taskGen instr text
              let st3 := rtMod (addCost st2 oc.2) id fun r => { r with output := some oc.1 }
              let st4 := appendStep st3 (taskVerboseLog instr outLbl lbl (some oc.1) d)
              (sched cs).foldl (fun s c => execNodeA M tc g sched fuel c (d + 1) s) st4
    | some (.judge crit cs ps lbl) =>
        let st1 := decrIndegree (setDepthMax st id depth) id
        if 0 < (rtGet st1 id).indegree then st1
        else
          let d := (rtGet st1 id).depth
          let st2 := fireNode st1 id
          let text := gParentsText g st2 (parentIdsOf g id) ++ judgeEvalParamsText tc ps
          let vc := M.binaryGen crit text
          let st3 := rtMod (addCost st2 vc.2) id fun r => { r with verdictRes := some vc.1 }
          let st4 := appendStep st3 (binaryVerboseLog crit lbl vc.1 d)
          (sched cs).foldl (fun s c => execNodeA M tc g sched fuel c (d + 1) s) st4

/-- Initial per-node runtime state after construction: indegree as
wired by the constructors, depth 0, nothing resolved. -/
def initRT (g : Graph) : NodeId → NodeRT := fun i =>
  { indegree := (edgesInto g i : Int), depth := 0, output := none,
    verdictRes := none, fired := 0 }

/-- Fresh host metric. -/
def initMetric (includeReason : Bool) : Metric :=
  { score := none, reason := none, evaluationCost := 0,
    includeReason := includeReason, verboseSteps := [], modelCalls := 0 }

/-- State at the start of a run. -/
def initState (g : Graph) (includeReason : Bool) : ExecState :=
  { rt := initRT g, metric := initMetric includeReason, err := false }

/-- Host-side synchronous entry: invoke the root with the test case at
depth 0 on a freshly constructed DAG. -/
def runDag (M : Model) (tc : TestCase) (g : Graph) (fuel : Nat)
    (root : NodeId) (includeReason : Bool) : ExecState :=
  execNode M tc g fuel root 0 (initState g includeReason)

/-- Host-side concurrent entry under a completion-order schedule. -/
def runDagA (M : Model) (tc : TestCase) (g : Graph)
    (sched : List NodeId → List NodeId) (fuel : Nat)
    (root : NodeId) (includeReason : Bool) : ExecState :=
  execNodeA M tc g sched fuel root 0 (initState g includeReason)

/-- Bool test: the child is a VerdictNode with a boolean verdict. -/
def isBoolVerdictB : ChildArg → Bool
  | .verdictNode (.b _) _ _ => true
  | _ => false

/-- Bool test: the child is a VerdictNode with a string verdict. -/
def isStringVerdictB : ChildArg → Bool
  | .verdictNode (.s _) _ _ => true
  | _ => false

/-- A test case whose fields are all empty. -/
def tc0 : TestCase := ⟨fun _ => ""⟩

/-- A deterministic model capability with constant responses and costs. -/
def constModel (out : String) (bv : BVerdict) (rsn : String)
    (cT cB cR : ℚ) : Model :=
  { taskGen := fun _ _ => (out, cT)
    binaryGen := fun _ _ => (bv, cB)
    reasonGen := fun _ _ => (rsn, cR) }

/-- One BinaryJudgementNode (node 0) with a True VerdictNode child of
score sT (node 1) and a False VerdictNode child of score sF (node 2). -/
def roundGraph (crit : String) (sT sF : Int) : Graph :=
  ⟨[.judge crit [1, 2] none none,
    .verdict true (some sT) none,
    .verdict false (some sF) none]⟩

/-- A BinaryJudgementNode root (node 0) whose True child (node 1) is a
terminal leaf and whose False child (node 2) wraps node 3, the root of
an arbitrary subgraph occupying all ids from 3 on. -/
def prunedGraph (crit : String) (sT : Int) (sub : List GNode) : Graph :=
  ⟨.judge crit [1, 2] none none ::
    .verdict true (some sT) none ::
    .verdict false none (some 3) :: sub⟩

/-- A TaskNode root fanning out to two BinaryJudgementNode children,
each with terminal True / False VerdictNode leaves; the two taken (True)
leaves carry different scores (10 and 0), so whichever subtree completes
last decides the final score. -/
def twinJudgeGraph : Graph :=
  ⟨[.task "summarize" "OUT" [1, 4] (some []) none,
    .judge "crit one" [2, 3] none none,
    .verdict true (some 10) none,
    .verdict false (some 0) none,
    .judge "crit two" [5, 6] none none,
    .verdict true (some 0) none,
    .verdict false (some 0) none]⟩

/-- Constant model used by the concrete scenario runs: every judgement
resolves True at cost 1, every task produces the same output at cost 1. -/
def demoModel : Model := constModel "out" ⟨true, "r"⟩ "rs" 1 1 1

/-- The converging-DAG scenario from the spec: a TaskNode root with two
BinaryJudgementNode children whose True branches both wrap the same
downstream node 7, reachable only through the two nested-increment
paths established at construction. -/
def sharedTargetGraph : Graph :=
  ⟨[.task "summarize" "OUT" [1, 4] (some []) none,
    .judge "crit one" [2, 3] none none,
    .verdict true none (some 7),
    .verdict false (some 0) none,
    .judge "crit two" [5, 6] none none,
    .verdict true none (some 7),
    .verdict false (some 0) none,
    .task "followup" "OUT2" [] (some []) none]⟩

/-- First run of the C5 scenario: execute the round graph once. -/
def c5FirstRun : ExecState := runDag demoModel tc0 (roundGraph "crit" 10 0) 5 0 false

/-- Second run of the C5 scenario: re-invoke the already-fired root on
the state the first run left behind. -/
def c5SecondRun : ExecState := execNode demoModel tc0 (roundGraph "crit" 10 0) 5 0 0 c5FirstRun

/-! ## Theorems -/

theorem gateRun_append (l1 l2 : List Nat) (s : Gate) :
    gateRun (l1 ++ l2) s = gateRun l2 (gateRun l1 s) := by
  induction l1 generalizing s with
  | nil => rfl
  | cons a rest ih => simp [gateRun, ih]

theorem gateRun_lt (l : List Nat) (K : Nat) (h : l.length < K) :
    gateRun l (gateInit K) = { indegree := (K : Int) - l.length, payloads := 0 } := by
  induction l generalizing K with
  | nil => simp [gateRun, gateInit]
  | cons a rest ih =>
      have hK : 2 ≤ K := by
        have := h
        simp only [List.length_cons] at this
        omega
      have harr : gateArrive (gateInit K) = gateInit (K - 1) := by
        simp only [gateArrive, gateInit]
        have : (0 : Int) < (K : Int) - 1 := by
          have : (2 : Int) ≤ (K : Int) := by exact_mod_cast hK
          omega
        rw [if_pos this]
        have : ((K - 1 : Nat) : Int) = (K : Int) - 1 := by omega
        simp [this]
      have hlen : rest.length < K - 1 := by
        simp only [List.length_cons] at h
        omega
      rw [show gateRun (a :: rest) (gateInit K) = gateRun rest (gateArrive (gateInit K)) from rfl,
        harr, ih (K - 1) hlen]
      have h1 : ((K - 1 : Nat) : Int) = (K : Int) - 1 := by omega
      rw [h1]
      simp only [List.length_cons]
      congr 1
      push_cast
      ring

theorem gateRun_exact (l : List Nat) (K : Nat) (h1 : 1 ≤ K) (h2 : l.length = K) :
    gateRun l (gateInit K) = { indegree := 0, payloads := 1 } := by
  induction l generalizing K with
  | nil => simp at h2; omega
  | cons a rest ih =>
      simp only [List.length_cons] at h2
      by_cases hK : K = 1
      · subst hK
        have hr : rest = [] := by
          cases rest with
          | nil => rfl
          | cons x xs => simp at h2
        subst hr
        simp [gateRun, gateArrive, gateInit]
      · have hK2 : 2 ≤ K := by omega
        have harr : gateArrive (gateInit K) = gateInit (K - 1) := by
          simp only [gateArrive, gateInit]
          have : (0 : Int) < (K : Int) - 1 := by
            have : (2 : Int) ≤ (K : Int) := by exact_mod_cast hK2
            omega
          rw [if_pos this]
          have : ((K - 1 : Nat) : Int) = (K : Int) - 1 := by omega
          simp [this]
        rw [show gateRun (a :: rest) (gateInit K) = gateRun rest (gateArrive (gateInit K)) from rfl,
          harr, ih (K - 1) (by omega) (by omega)]

theorem gateRun_nonpos (l : List Nat) (s : Gate) (h : s.indegree ≤ 0) :
    gateRun l s = { indegree := s.indegree - l.length, payloads := s.payloads + l.length } := by
  induction l generalizing s with
  | nil => simp [gateRun]
  | cons a rest ih =>
      have harr : gateArrive s = { indegree := s.indegree - 1, payloads := s.payloads + 1 } := by
        simp only [gateArrive]
        rw [if_neg (by omega)]
      rw [show gateRun (a :: rest) s = gateRun rest (gateArrive s) from rfl, harr,
        ih _ (by simp; omega)]
      simp only [List.length_cons]
      congr 1
      · push_cast; ring
      · omega

/-- Claim C1: a node reachable via K incoming edges (K parents, or K
nested-increment paths established at construction, both counted by
edgesInto) starts at indegree K; fewer than K invocations of its
execution entry point produce zero payload executions, and the K-th
invocation produces exactly one payload execution, whichever edges the
arrivals come from and in whatever order. The last conjunct instantiates
the nested-increment case in the executable model: a downstream node
shared by the True branches of two judgement nodes is constructed with
indegree 2 and fires exactly once, on the second arrival. -/
theorem c1_arrival_gating (K : Nat) (l : List Nat) :
    (l.length < K → (gateRun l (gateInit K)).payloads = 0) ∧
    (1 ≤ K → l.length = K → gateRun l (gateInit K) = { indegree := 0, payloads := 1 }) ∧
    (edgesInto sharedTargetGraph 7 = 2 ∧
      ((runDag demoModel tc0 sharedTargetGraph 10 0 false).rt 7).fired = 1 ∧
      (runDag demoModel tc0 sharedTargetGraph 10 0 false).err = false) := by
  refine ⟨?_, ?_, by decide, by decide, by decide⟩
  · intro h
    rw [gateRun_lt l K h]
  · intro h1 h2
    exact gateRun_exact l K h1 h2

/-- Witness for C1 at K = 2: one arrival fires nothing, the second
arrival fires the payload exactly once. -/
theorem c1_arrival_gating_witness :
    (gateRun [5] (gateInit 2)).payloads = 0 ∧
    gateRun [5, 7] (gateInit 2) = { indegree := 0, payloads := 1 } :=
  ⟨(c1_arrival_gating 2 [5]).1 (by decide),
   (c1_arrival_gating 2 [5, 7]).2.1 (by decide) (by decide)⟩

/-- Counterexample to claim C5 as stated: re-invoking an
already-fired node is not a no-op. Running the two-leaf judgement DAG
once appends 2 verbose-log entries at one model invocation; re-invoking
the already-fired root executes its payload again, leaving 4 entries,
2 model invocations, and a doubled cost. -/
theorem c5_counterexample :
    c5FirstRun.metric.verboseSteps.length = 2 ∧
    c5SecondRun.metric.verboseSteps.length = 4 ∧
    c5FirstRun.metric.modelCalls = 1 ∧
    c5SecondRun.metric.modelCalls = 2 ∧
    c5SecondRun.metric.evaluationCost ≠ c5FirstRun.metric.evaluationCost := by
  refine ⟨by decide, by decide, by decide, by decide, ?_⟩
  have h1 : c5FirstRun.metric.evaluationCost = 0 + 1 := rfl
  have h2 : c5SecondRun.metric.evaluationCost = 0 + 1 + 1 := rfl
  rw [h1, h2]
  norm_num

/-- Claim C5 amended: the execute methods keep no fired flag, so an
invocation arriving after the payload has fired drives the counter
negative and the guard (counter still greater than zero) does not stop
it: after K + m arrivals on a node with K incoming edges the payload
has executed 1 + m times, duplicating log appends and cost increments;
the no-op guarantee holds only for arrivals that leave the counter
positive. -/
theorem c5_refire (K m : Nat) (hK : 1 ≤ K) :
    gateRun (List.replicate (K + m) 0) (gateInit K)
      = { indegree := -(m : Int), payloads := 1 + m } := by
  rw [List.replicate_add, gateRun_append,
    gateRun_exact (List.replicate K 0) K hK (List.length_replicate K 0),
    gateRun_nonpos _ _ (by simp)]
  simp

/-- Witness for C5 amended at K = 1, m = 1: the second invocation
re-fires the payload. -/
theorem c5_refire_witness :
    gateRun (List.replicate (1 + 1) 0) (gateInit 1)
      = { indegree := -((1 : Nat) : Int), payloads := 1 + 1 } :=
  c5_refire 1 1 (by decide)

/-- Claim C6: VerdictNode construction fails when both score and child
are supplied, fails when neither is, fails at score 11, and succeeds at
scores 0 and 10 with no child supplied. -/
theorem c6_verdict_construction :
    (∀ (s : Int) (ch : ChildRef),
        verdictNodePostInit (some s) (some ch)
          = .error (.valueError "A VerdictNode can have either a score or a child, but not both.")) ∧
    verdictNodePostInit none none
      = .error (.valueError "A VerdictNode must have either a score or a child.") ∧
    verdictNodePostInit (some 11) none
      = .error (.valueError "The score must be between 0 and 10, inclusive.") ∧
    verdictNodePostInit (some 0) none = .ok () ∧
    verdictNodePostInit (some 10) none = .ok () :=
  ⟨fun _s _ch => rfl, rfl, rfl, rfl, rfl⟩

theorem binaryChildCheck_ok (cs : List ChildArg) :
    binaryChildCheck cs = .ok () ↔ ∀ c ∈ cs, isBoolVerdictB c = true := by
  induction cs with
  | nil => simp [binaryChildCheck]
  | cons c rest ih =>
      cases c with
      | otherNode => simp [binaryChildCheck, isBoolVerdictB]
      | verdictNode v sc ch =>
          cases v with
          | b bv => simp [binaryChildCheck, isBoolVerdictB, ih]
          | s sv => simp [binaryChildCheck, isBoolVerdictB]

/-- Claim C7: BinaryJudgementNode construction succeeds exactly when
given 2 children, all VerdictNode with boolean verdicts, whose verdict
pair is exactly one True and one False; two True children fail. -/
theorem c7_binary_construction :
    (∀ cs, binaryJudgementValidate cs = .ok () ↔
        (cs.length = 2 ∧ (∀ c ∈ cs, isBoolVerdictB c = true) ∧
          (boolVerdicts cs).count true = 1 ∧ (boolVerdicts cs).count false = 1)) ∧
    binaryJudgementValidate
        [ChildArg.verdictNode (PyVal.b true) (some 10) none,
         ChildArg.verdictNode (PyVal.b true) (some 0) none]
      = .error (.valueError "BinaryJudgementNode must have one True and one False VerdictNode child.") := by
  refine ⟨?_, rfl⟩
  intro cs
  constructor
  · intro hok
    by_cases hlen : cs.length = 2
    · cases hchk : binaryChildCheck cs with
      | error e => simp [binaryJudgementValidate, hlen, hchk] at hok
      | ok u =>
          cases u
          by_cases hcnt : (boolVerdicts cs).count true ≠ 1 ∨ (boolVerdicts cs).count false ≠ 1
          · simp [binaryJudgementValidate, hlen, hchk, hcnt] at hok
          · push_neg at hcnt
            exact ⟨hlen, (binaryChildCheck_ok cs).mp hchk, hcnt.1, hcnt.2⟩
    · simp [binaryJudgementValidate, hlen] at hok
  · rintro ⟨hlen, hall, ht, hf⟩
    have hchk := (binaryChildCheck_ok cs).mpr hall
    simp [binaryJudgementValidate, hlen, hchk, ht, hf]

/-- Witness for C7: a True child and a False child of the right type
validate successfully. -/
theorem c7_binary_construction_witness :
    binaryJudgementValidate
        [ChildArg.verdictNode (PyVal.b true) (some 10) none,
         ChildArg.verdictNode (PyVal.b false) (some 0) none] = .ok () :=
  (c7_binary_construction.1 _).mpr (by decide)

theorem nonBinaryChildLoop_ok (cs : List ChildArg) :
    ∀ (seen opts : List String), nonBinaryChildLoop cs seen = .ok opts →
      (∀ c ∈ cs, isStringVerdictB c = true) ∧
      opts = seen ++ stringVerdicts cs ∧
      (∀ v ∈ stringVerdicts cs, v ∉ seen) ∧
      (stringVerdicts cs).Nodup := by
  induction cs with
  | nil =>
      intro seen opts h
      simp only [nonBinaryChildLoop, Except.ok.injEq] at h
      simp [stringVerdicts, h]
  | cons c rest ih =>
      intro seen opts h
      cases c with
      | otherNode => simp [nonBinaryChildLoop] at h
      | verdictNode v sc ch =>
          cases v with
          | b bv => simp [nonBinaryChildLoop] at h
          | s sv =>
              rw [nonBinaryChildLoop] at h
              by_cases hmem : sv ∈ seen
              · simp [hmem] at h
              · rw [if_neg hmem] at h
                obtain ⟨hall, hopts, hfresh, hnodup⟩ := ih (seen ++ [sv]) opts h
                have hsv : stringVerdicts (ChildArg.verdictNode (PyVal.s sv) sc ch :: rest)
                    = sv :: stringVerdicts rest := by
                  simp [stringVerdicts]
                refine ⟨?_, ?_, ?_, ?_⟩
                · intro c hc
                  rcases List.mem_cons.mp hc with hc | hc
                  · rw [hc]; rfl
                  · exact hall c hc
                · rw [hopts, hsv, List.append_assoc]
                  rfl
                · intro u hu
                  rw [hsv] at hu
                  rcases List.mem_cons.mp hu with hu | hu
                  · rw [hu]; exact hmem
                  · intro hcon
                    exact hfresh u hu (List.mem_append_left _ hcon)
                · rw [hsv]
                  refine List.nodup_cons.mpr ⟨?_, hnodup⟩
                  intro hcon
                  exact hfresh sv hcon (List.mem_append_right _ (List.mem_singleton.mpr rfl))

/-- Claim C8: NonBinaryJudgementNode construction fails when any child
verdict is not a string or any two children share a verdict string; on
success the derived verdict-option list holds exactly the set of
distinct child verdict strings. -/
theorem c8_nonbinary_construction :
    (∀ cs opts, nonBinaryJudgementValidate cs = .ok opts →
        ((∀ c ∈ cs, isStringVerdictB c = true) ∧ (stringVerdicts cs).Nodup ∧
          ∀ v, v ∈ opts ↔ v ∈ stringVerdicts cs)) ∧
    (∀ cs, ((∃ c ∈ cs, isStringVerdictB c = false) ∨ ¬ (stringVerdicts cs).Nodup) →
        ∀ opts, nonBinaryJudgementValidate cs ≠ .ok opts) := by
  have main : ∀ cs opts, nonBinaryJudgementValidate cs = .ok opts →
      ((∀ c ∈ cs, isStringVerdictB c = true) ∧ (stringVerdicts cs).Nodup ∧
        ∀ v, v ∈ opts ↔ v ∈ stringVerdicts cs) := by
    intro cs opts h
    by_cases hnil : cs = []
    · simp [nonBinaryJudgementValidate, hnil] at h
    · rw [nonBinaryJudgementValidate, if_neg hnil] at h
      obtain ⟨hall, hopts, _, hnodup⟩ := nonBinaryChildLoop_ok cs [] opts h
      refine ⟨hall, hnodup, fun v => ?_⟩
      rw [hopts]
      simp
  refine ⟨main, ?_⟩
  intro cs hbad opts hok
  obtain ⟨hall, hnodup, _⟩ := main cs opts hok
  rcases hbad with ⟨c, hc, hfalse⟩ | hnd
  · rw [hall c hc] at hfalse
    exact Bool.noConfusion hfalse
  · exact hnd hnodup

/-- Witness for C8: two distinct string verdicts validate and the
derived options are exactly those strings. -/
theorem c8_nonbinary_construction_witness :
    (stringVerdicts
        [ChildArg.verdictNode (PyVal.s "ok") (some 1) none,
         ChildArg.verdictNode (PyVal.s "bad") (some 2) none]).Nodup ∧
    ("ok" ∈ ["ok", "bad"] ↔ "ok" ∈ stringVerdicts
        [ChildArg.verdictNode (PyVal.s "ok") (some 1) none,
         ChildArg.verdictNode (PyVal.s "bad") (some 2) none]) :=
  ⟨(c8_nonbinary_construction.1
      [ChildArg.verdictNode (PyVal.s "ok") (some 1) none,
       ChildArg.verdictNode (PyVal.s "bad") (some 2) none] ["ok", "bad"] rfl).2.1,
   (c8_nonbinary_construction.1
      [ChildArg.verdictNode (PyVal.s "ok") (some 1) none,
       ChildArg.verdictNode (PyVal.s "bad") (some 2) none] ["ok", "bad"] rfl).2.2 "ok"⟩

theorem foldl_double (ps : List ParentView) :
    ∀ acc : String,
      ps.foldl
        (fun a p =>
          match p with
          | .taskP lbl out => a ++ lbl ++ ":\n" ++ pyOptStr out ++ "\n\n"
          | .otherP => a)
        acc
      = acc ++ specContextDouble ps := by
  induction ps with
  | nil => intro acc; simp [specContextDouble]
  | cons p rest ih =>
      intro acc
      cases p with
      | taskP lbl out =>
          simp only [List.foldl_cons, ih, specContextDouble, specFragmentDouble]
          simp [String.append_assoc]
      | otherP =>
          simp only [List.foldl_cons, ih, specContextDouble, specFragmentDouble]
          simp

theorem foldl_single (ps : List ParentView) :
    ∀ acc : String,
      ps.foldl
        (fun a p =>
          match p with
          | .taskP lbl out => a ++ lbl ++ ":\n" ++ pyOptStr out ++ "\n"
          | .otherP => a)
        acc
      = acc ++ specContextSingle ps := by
  induction ps with
  | nil => intro acc; simp [specContextSingle]
  | cons p rest ih =>
      intro acc
      cases p with
      | taskP lbl out =>
          simp only [List.foldl_cons, ih, specContextSingle, specFragmentSingle]
          simp [String.append_assoc]
      | otherP =>
          simp only [List.foldl_cons, ih, specContextSingle, specFragmentSingle]
          simp

/-- Counterexample to claim C9 as stated: for a single TaskNode parent,
the non-binary judgement execute method builds its upstream context
with a single trailing newline, not the claimed trailing blank line. -/
theorem c9_counterexample :
    nonBinaryParentContext [ParentView.taskP "L" (some "O")] = "L:\nO\n" ∧
    specContextDouble [ParentView.taskP "L" (some "O")] = "L:\nO\n\n" ∧
    nonBinaryParentContext [ParentView.taskP "L" (some "O")]
      ≠ specContextDouble [ParentView.taskP "L" (some "O")] := by
  refine ⟨rfl, rfl, ?_⟩
  decide

/-- Claim C9 amended: TaskNode and BinaryJudgementNode build the
upstream context by concatenating, per TaskNode parent, the fragment
with a trailing blank line, exactly as the claim states; but
NonBinaryJudgementNode concatenates the fragment with a single trailing
newline and no blank line. -/
theorem c9_parent_context (ps : List ParentView) :
    taskParentContext ps = specContextDouble ps ∧
    binaryParentContext ps = specContextDouble ps ∧
    nonBinaryParentContext ps = specContextSingle ps := by
  refine ⟨?_, ?_, ?_⟩
  · rw [taskParentContext, foldl_double]
    simp
  · rw [binaryParentContext, foldl_double]
    simp
  · rw [nonBinaryParentContext, foldl_single]
    simp

/-- Claim C10: a TaskNode constructed with evaluation_params left at
its default None passes construction (the post-init never inspects it),
but once its dependency count reaches zero its execution raises
TypeError while iterating evaluation_params; the judgement execute
methods guard the same loop with an explicit None check and complete
without error. -/
theorem c10_task_params_none :
    taskNodePostInit [] = .ok () ∧
    (∀ tc, taskEvalParamsText tc none
        = .error (.typeError "NoneType object is not iterable")) ∧
    (∀ tc, judgeEvalParamsText tc none = "") ∧
    (∀ (M : Model) (tc : TestCase) (instr lbl : String) (fuel : Nat),
        (execNode M tc ⟨[.task instr lbl [] none none]⟩ (fuel + 1) 0 0
          (initState ⟨[.task instr lbl [] none none]⟩ false)).err = true) ∧
    (∀ (M : Model) (tc : TestCase) (crit : String) (fuel : Nat),
        (execNode M tc ⟨[.judge crit [] none none]⟩ (fuel + 1) 0 0
          (initState ⟨[.judge crit [] none none]⟩ false)).err = false) := by
  refine ⟨rfl, fun tc => rfl, fun tc => rfl, ?_, ?_⟩
  · intro M tc instr lbl fuel
    simp [execNode, initState, initRT, initMetric, edgesInto, edgesScan,
      indegreeFrom, childrenOf, decrIndegree, setDepthMax, rtMod, rtGet,
      fireNode, raiseErr]
  · intro M tc crit fuel
    simp [execNode, initState, initRT, initMetric, edgesInto, edgesScan,
      indegreeFrom, childrenOf, nestedBumps, decrIndegree, setDepthMax,
      rtMod, rtGet, fireNode, addCost, appendStep, gParentsText,
      judgeEvalParamsText, parentIdsOf, parentScan]

/-- Claim C4: a terminal-leaf VerdictNode (score set, no child) sets
the host metric final score to score divided by 10; and in the DAG of
one BinaryJudgementNode with children True at score 10 and False at
score 0, under a model that deterministically resolves True, executing
the root yields final score 1, the verbose log holding exactly the
judgement entry followed by the taken True-verdict entry and nothing
for the untaken child, one model invocation, and the untaken child
never fires. -/
theorem c4_leaf_score_and_scenario :
    (∀ (M : Model) (tc : TestCase) (v : Bool) (s : Int) (fuel : Nat),
        (runDag M tc ⟨[.verdict v (some s) none]⟩ (fuel + 1) 0 false).metric.score
          = some ((s : ℚ) / 10)) ∧
    (∀ (M : Model) (tc : TestCase) (crit r : String) (c : ℚ) (fuel : Nat),
        M.binaryGen crit "" = (⟨true, r⟩, c) →
        (runDag M tc (roundGraph crit 10 0) (fuel + 2) 0 false).metric.score = some 1 ∧
        (runDag M tc (roundGraph crit 10 0) (fuel + 2) 0 false).metric.verboseSteps
          = [binaryVerboseLog crit none ⟨true, r⟩ 0, verdictVerboseLog true 1] ∧
        (runDag M tc (roundGraph crit 10 0) (fuel + 2) 0 false).metric.modelCalls = 1 ∧
        ((runDag M tc (roundGraph crit 10 0) (fuel + 2) 0 false).rt 1).fired = 1 ∧
        ((runDag M tc (roundGraph crit 10 0) (fuel + 2) 0 false).rt 2).fired = 0 ∧
        (runDag M tc (roundGraph crit 10 0) (fuel + 2) 0 false).err = false) := by
  constructor
  · intro M tc v s fuel
    simp [runDag, execNode, initState, initRT, initMetric, edgesInto, edgesScan,
      indegreeFrom, childrenOf, decrIndegree, rtMod, rtGet, verdictGate,
      verdictParentOf, parentIdsOf, parentScan, fireNode, verdictLeafPayload,
      appendStep, raiseErr]
  · intro M tc crit r c fuel hM
    simp [runDag, execNode, initState, initRT, initMetric, roundGraph, edgesInto,
      edgesScan, indegreeFrom, childrenOf, nestedBumps, nestedBump, decrIndegree,
      setDepthMax, rtMod, rtGet, verdictGate, verdictParentOf, parentIdsOf,
      parentScan, fireNode, verdictLeafPayload, appendStep, raiseErr, addCost,
      gParentsText, judgeEvalParamsText, hM]

/-- Witness for C4 under a concrete deterministic model resolving True. -/
theorem c4_leaf_score_and_scenario_witness :
    (runDag demoModel tc0 (roundGraph "is it correct" 10 0) 3 0 false).metric.score
        = some 1 ∧
    (runDag demoModel tc0 (roundGraph "is it correct" 10 0) 3 0 false).metric.verboseSteps
        = [binaryVerboseLog "is it correct" none ⟨true, "r"⟩ 0, verdictVerboseLog true 1] ∧
    ((runDag demoModel tc0 (roundGraph "is it correct" 10 0) 3 0 false).rt 2).fired = 0 :=
  ⟨(c4_leaf_score_and_scenario.2 demoModel tc0 "is it correct" "r" 1 1 rfl).1,
   (c4_leaf_score_and_scenario.2 demoModel tc0 "is it correct" "r" 1 1 rfl).2.1,
   (c4_leaf_score_and_scenario.2 demoModel tc0 "is it correct" "r" 1 1 rfl).2.2.2.2.1⟩

theorem execNodeA_launch_order (M : Model) (tc : TestCase) (g : Graph) :
    ∀ (fuel : Nat) (id : NodeId) (depth : Nat) (st : ExecState),
      execNodeA M tc g (fun l => l) fuel id depth st
        = execNode M tc g fuel id depth st := by
  intro fuel
  induction fuel with
  | zero => intro id depth st; rfl
  | succ n ih =>
      intro id depth st
      simp only [execNodeA, execNode, ih]

/-- Claim C3 amended: for every DAG, deterministic model, fuel and
root, the concurrent entry point whose child tasks complete in launch
order produces a final state identical to the synchronous entry point:
same score, same reason, same cost, and even the same verbose-log
order. When independent sibling subtrees complete out of launch order,
not only the log interleaving but also the final score and reason can
change, because every taken terminal leaf overwrites the host metric
score and the last completion wins (see the counterexample). -/
theorem c3_sync_async_equivalence (M : Model) (tc : TestCase) (g : Graph)
    (fuel : Nat) (root : NodeId) (includeReason : Bool) :
    runDagA M tc g (fun l => l) fuel root includeReason
      = runDag M tc g fuel root includeReason :=
  execNodeA_launch_order M tc g fuel root 0 (initState g includeReason)

/-- Counterexample to claim C3 as stated: on the twin-judge DAG under
the same deterministic model, the synchronous run ends with final score
0 (the second judgement taken leaf writes last) while a concurrent run
whose sibling subtrees complete in reverse launch order ends with final
score 1 - the final scores differ, not merely the verbose-log
interleaving; total cost and model invocations agree. -/
theorem c3_counterexample :
    (runDag demoModel tc0 twinJudgeGraph 10 0 false).metric.score = some 0 ∧
    (runDagA demoModel tc0 twinJudgeGraph (fun l => l.reverse) 10 0 false).metric.score
      = some 1 ∧
    (runDag demoModel tc0 twinJudgeGraph 10 0 false).metric.score
      ≠ (runDagA demoModel tc0 twinJudgeGraph (fun l => l.reverse) 10 0 false).metric.score ∧
    (runDag demoModel tc0 twinJudgeGraph 10 0 false).metric.evaluationCost
      = (runDagA demoModel tc0 twinJudgeGraph (fun l => l.reverse) 10 0 false).metric.evaluationCost ∧
    (runDag demoModel tc0 twinJudgeGraph 10 0 false).metric.modelCalls = 3 ∧
    (runDagA demoModel tc0 twinJudgeGraph (fun l => l.reverse) 10 0 false).metric.modelCalls = 3 ∧
    (runDag demoModel tc0 twinJudgeGraph 10 0 false).err = false ∧
    (runDagA demoModel tc0 twinJudgeGraph (fun l => l.reverse) 10 0 false).err = false := by
  have hs : (runDag demoModel tc0 twinJudgeGraph 10 0 false).metric.score
      = some (((0 : Int) : ℚ) / 10) := rfl
  have ha : (runDagA demoModel tc0 twinJudgeGraph (fun l => l.reverse) 10 0 false).metric.score
      = some (((10 : Int) : ℚ) / 10) := rfl
  have hcs : (runDag demoModel tc0 twinJudgeGraph 10 0 false).metric.evaluationCost
      = 0 + 1 + 1 + 1 := rfl
  have hca : (runDagA demoModel tc0 twinJudgeGraph (fun l => l.reverse) 10 0 false).metric.evaluationCost
      = 0 + 1 + 1 + 1 := rfl
  refine ⟨?_, ?_, ?_, ?_, by decide, by decide, by decide, by decide⟩
  · rw [hs]; norm_num
  · rw [ha]; norm_num
  · rw [hs, ha]
    intro hcon
    rw [Option.some.injEq] at hcon
    norm_num at hcon
  · rw [hcs, hca]

theorem prunedGraph_get_ge (crit : String) (sT : Int) (sub : List GNode)
    (i : Nat) (h : 3 ≤ i) :
    (prunedGraph crit sT sub).nodes.get? i = sub.get? (i - 3) := by
  obtain ⟨k, rfl⟩ : ∃ k, i = k + 3 := ⟨i - 3, by omega⟩
  simp [prunedGraph]

theorem nestedBump_sub_zero (crit : String) (sT : Int) (sub : List GNode)
    (hsub : ∀ n ∈ sub, ∀ k ∈ refsOf n, 3 ≤ k)
    (c id : Nat) (hc : 3 ≤ c) (hid : id < 3) :
    nestedBump (prunedGraph crit sT sub) c id = 0 := by
  rw [nestedBump, prunedGraph_get_ge crit sT sub c hc]
  cases hget : sub.get? (c - 3) with
  | none => rfl
  | some n =>
      have hn : n ∈ sub := List.get?_mem hget
      cases n with
      | task a b cs ps lb => rfl
      | judge a cs ps lb => rfl
      | verdict v sc ch =>
          cases ch with
          | none => rfl
          | some k =>
              have hk : (3 : Nat) ≤ k := hsub _ hn k (by simp [refsOf])
              have hne : ¬(k = id) := (Nat.lt_of_lt_of_le hid hk).ne'
              show (if k = id then 1 else 0) = 0
              rw [if_neg hne]

theorem indegreeFrom_sub_zero (crit : String) (sT : Int) (sub : List GNode)
    (hsub : ∀ n ∈ sub, ∀ k ∈ refsOf n, 3 ≤ k)
    (n : GNode) (hn : n ∈ sub) (id : Nat) (hid : id < 3) :
    indegreeFrom (prunedGraph crit sT sub) n id = 0 := by
  cases n with
  | task a b cs ps lb =>
      have hmem : id ∉ cs := by
        intro hmem
        have h3 : (3 : Nat) ≤ id := hsub _ hn id (by simpa [refsOf] using hmem)
        omega
      simp [indegreeFrom, List.count_eq_zero.mpr hmem]
  | judge a cs ps lb =>
      have hcs : ∀ c ∈ cs, (3 : Nat) ≤ c := fun c hc =>
        hsub _ hn c (by simpa [refsOf] using hc)
      have hmem : id ∉ cs := by
        intro hmem
        have h3 : (3 : Nat) ≤ id := hcs id hmem
        omega
      have hbumps : ∀ cs2 : List NodeId, (∀ c ∈ cs2, (3 : Nat) ≤ c) →
          nestedBumps (prunedGraph crit sT sub) id cs2 = 0 := by
        intro cs2
        induction cs2 with
        | nil => intro _; rfl
        | cons c rest ih =>
            intro hall
            rw [nestedBumps, nestedBump_sub_zero crit sT sub hsub c id (hall c (by simp)) hid,
              ih (fun x hx => hall x (by simp [hx]))]
      simp [indegreeFrom, List.count_eq_zero.mpr hmem, hbumps cs hcs]
  | verdict v sc ch => rfl

theorem edgesScan_sub_zero (crit : String) (sT : Int) (sub : List GNode)
    (hsub : ∀ n ∈ sub, ∀ k ∈ refsOf n, 3 ≤ k)
    (id : Nat) (hid : id < 3) :
    ∀ l : List GNode, (∀ n ∈ l, n ∈ sub) →
      edgesScan (prunedGraph crit sT sub) id l = 0 := by
  intro l
  induction l with
  | nil => intro _; rfl
  | cons n rest ih =>
      intro hall
      rw [edgesScan, indegreeFrom_sub_zero crit sT sub hsub n (hall n (by simp)) id hid,
        ih (fun x hx => hall x (by simp [hx]))]

theorem prunedGraph_edges (crit : String) (sT : Int) (sub : List GNode)
    (hsub : ∀ n ∈ sub, ∀ k ∈ refsOf n, 3 ≤ k) :
    edgesInto (prunedGraph crit sT sub) 0 = 0 ∧
    edgesInto (prunedGraph crit sT sub) 1 = 1 ∧
    edgesInto (prunedGraph crit sT sub) 2 = 1 := by
  have hscan0 := edgesScan_sub_zero crit sT sub hsub 0 (by omega) sub (fun n h => h)
  have hscan1 := edgesScan_sub_zero crit sT sub hsub 1 (by omega) sub (fun n h => h)
  have hscan2 := edgesScan_sub_zero crit sT sub hsub 2 (by omega) sub (fun n h => h)
  refine ⟨?_, ?_, ?_⟩
  · rw [edgesInto]
    show edgesScan (prunedGraph crit sT sub) 0 (_ :: _ :: _ :: sub) = 0
    rw [edgesScan, edgesScan, edgesScan, hscan0]
    rfl
  · rw [edgesInto]
    show edgesScan (prunedGraph crit sT sub) 1 (_ :: _ :: _ :: sub) = 1
    rw [edgesScan, edgesScan, edgesScan, hscan1]
    rfl
  · rw [edgesInto]
    show edgesScan (prunedGraph crit sT sub) 2 (_ :: _ :: _ :: sub) = 1
    rw [edgesScan, edgesScan, edgesScan, hscan2]
    rfl

theorem parentScan_sub_nil (sub : List GNode)
    (hsub : ∀ n ∈ sub, ∀ k ∈ refsOf n, 3 ≤ k)
    (id : Nat) (hid : id < 3) :
    ∀ (l : List GNode), (∀ n ∈ l, n ∈ sub) → ∀ j, parentScan id l j = [] := by
  intro l
  induction l with
  | nil => intro _ j; rfl
  | cons n rest ih =>
      intro hall j
      have hmem : id ∉ childrenOf n := by
        intro hmem
        have hr : id ∈ refsOf n := by
          cases n with
          | task a b cs ps lb => simpa [childrenOf, refsOf] using hmem
          | judge a cs ps lb => simpa [childrenOf, refsOf] using hmem
          | verdict v sc ch => simp [childrenOf] at hmem
        have h3 : (3 : Nat) ≤ id := hsub _ (hall n (by simp)) id hr
        omega
      rw [parentScan, List.count_eq_zero.mpr hmem]
      simp [ih (fun x hx => hall x (by simp [hx]))]

theorem prunedGraph_parents (crit : String) (sT : Int) (sub : List GNode)
    (hsub : ∀ n ∈ sub, ∀ k ∈ refsOf n, 3 ≤ k) :
    parentIdsOf (prunedGraph crit sT sub) 0 = [] ∧
    parentIdsOf (prunedGraph crit sT sub) 1 = [0] ∧
    parentIdsOf (prunedGraph crit sT sub) 2 = [0] := by
  have h0 := parentScan_sub_nil sub hsub 0 (by omega) sub (fun n h => h) 3
  have h1 := parentScan_sub_nil sub hsub 1 (by omega) sub (fun n h => h) 3
  have h2 := parentScan_sub_nil sub hsub 2 (by omega) sub (fun n h => h) 3
  refine ⟨?_, ?_, ?_⟩
  · rw [parentIdsOf]
    show parentScan 0 (_ :: _ :: _ :: sub) 0 = []
    rw [parentScan, parentScan, parentScan, h0]
    rfl
  · rw [parentIdsOf]
    show parentScan 1 (_ :: _ :: _ :: sub) 0 = [0]
    rw [parentScan, parentScan, parentScan, h1]
    rfl
  · rw [parentIdsOf]
    show parentScan 2 (_ :: _ :: _ :: sub) 0 = [0]
    rw [parentScan, parentScan, parentScan, h2]
    rfl



/-- Claim C2: in a DAG whose root BinaryJudgementNode resolves True,
the False VerdictNode child never executes its payload (it never fires,
invokes no model call and appends no verbose-log entry - the final log
holds exactly the judgement entry and the taken True-leaf entry, at one
model invocation) and every node of the arbitrary subgraph rooted under
the untaken child keeps its freshly-constructed runtime state: it never
executes. -/
theorem c2_pruned_branch (M : Model) (tc : TestCase) (crit r : String) (c : ℚ)
    (sT : Int) (sub : List GNode) (fuel : Nat)
    (hsub : ∀ n ∈ sub, ∀ k ∈ refsOf n, 3 ≤ k)
    (hM : M.binaryGen crit "" = (⟨true, r⟩, c)) :
    ((runDag M tc (prunedGraph crit sT sub) (fuel + 2) 0 false).rt 2).fired = 0 ∧
    (runDag M tc (prunedGraph crit sT sub) (fuel + 2) 0 false).metric.verboseSteps
      = [binaryVerboseLog crit none ⟨true, r⟩ 0, verdictVerboseLog true 1] ∧
    (runDag M tc (prunedGraph crit sT sub) (fuel + 2) 0 false).metric.modelCalls = 1 ∧
    (runDag M tc (prunedGraph crit sT sub) (fuel + 2) 0 false).err = false ∧
    (∀ i : Nat, 3 ≤ i →
      (runDag M tc (prunedGraph crit sT sub) (fuel + 2) 0 false).rt i
        = (initState (prunedGraph crit sT sub) false).rt i) := by
  obtain ⟨he0, he1, he2⟩ := prunedGraph_edges crit sT sub hsub
  obtain ⟨hp0, hp1, hp2⟩ := prunedGraph_parents crit sT sub hsub
  have hvp1 : verdictParentOf (prunedGraph crit sT sub) 1 = some 0 := by
    rw [verdictParentOf, hp1]; rfl
  have hvp2 : verdictParentOf (prunedGraph crit sT sub) 2 = some 0 := by
    rw [verdictParentOf, hp2]; rfl
  have hg0 : (prunedGraph crit sT sub).nodes[0]?
      = some (.judge crit [1, 2] none none) := by simp [prunedGraph]
  have hg1 : (prunedGraph crit sT sub).nodes[1]?
      = some (.verdict true (some sT) none) := by simp [prunedGraph]
  have hg2 : (prunedGraph crit sT sub).nodes[2]?
      = some (.verdict false none (some 3)) := by simp [prunedGraph]
  refine ⟨?_, ?_, ?_, ?_, ?_⟩
  · simp [runDag, execNode, initState, initRT, initMetric, decrIndegree,
      setDepthMax, rtMod, rtGet, verdictGate, fireNode, verdictLeafPayload,
      appendStep, addCost, raiseErr, gParentsText, judgeEvalParamsText,
      he0, he1, he2, hvp1, hvp2, hp0, hg0, hg1, hg2, hM]
  · simp [runDag, execNode, initState, initRT, initMetric, decrIndegree,
      setDepthMax, rtMod, rtGet, verdictGate, fireNode, verdictLeafPayload,
      appendStep, addCost, raiseErr, gParentsText, judgeEvalParamsText,
      he0, he1, he2, hvp1, hvp2, hp0, hg0, hg1, hg2, hM]
  · simp [runDag, execNode, initState, initRT, initMetric, decrIndegree,
      setDepthMax, rtMod, rtGet, verdictGate, fireNode, verdictLeafPayload,
      appendStep, addCost, raiseErr, gParentsText, judgeEvalParamsText,
      he0, he1, he2, hvp1, hvp2, hp0, hg0, hg1, hg2, hM]
  · simp [runDag, execNode, initState, initRT, initMetric, decrIndegree,
      setDepthMax, rtMod, rtGet, verdictGate, fireNode, verdictLeafPayload,
      appendStep, addCost, raiseErr, gParentsText, judgeEvalParamsText,
      he0, he1, he2, hvp1, hvp2, hp0, hg0, hg1, hg2, hM]
  · intro i hi
    have hi0 : ¬(i = 0) := by omega
    have hi1 : ¬(i = 1) := by omega
    have hi2 : ¬(i = 2) := by omega
    simp [runDag, execNode, initState, initRT, initMetric, decrIndegree,
      setDepthMax, rtMod, rtGet, verdictGate, fireNode, verdictLeafPayload,
      appendStep, addCost, raiseErr, gParentsText, judgeEvalParamsText,
      he0, he1, he2, hvp1, hvp2, hp0, hg0, hg1, hg2, hM,
      Function.update_apply, hi0, hi1, hi2]

/-- Witness for C2: a concrete one-node subgraph under the pruned
branch stays untouched while the pruned child never fires. -/
theorem c2_pruned_branch_witness :
    ((runDag demoModel tc0
        (prunedGraph "crit" 10 [GNode.task "x" "Y" [] (some []) none]) 3 0 false).rt 2).fired
      = 0 ∧
    (runDag demoModel tc0
        (prunedGraph "crit" 10 [GNode.task "x" "Y" [] (some []) none]) 3 0 false).rt 3
      = (initState (prunedGraph "crit" 10 [GNode.task "x" "Y" [] (some []) none]) false).rt 3 :=
  ⟨(c2_pruned_branch demoModel tc0 "crit" "r" 1 10
      [GNode.task "x" "Y" [] (some []) none] 1 (by decide) rfl).1,
   (c2_pruned_branch demoModel tc0 "crit" "r" 1 10
      [GNode.task "x" "Y" [] (some []) none] 1 (by decide) rfl).2.2.2.2 3 (by decide)⟩

end DeepevalDag
